import Mathlib

/-!
Verification of the AI-chat application core: the request/retry client
(`core/ai_client.py`) and the conversation persistence store
(`conversation/manager.py`) from the lab solution package.

The Python code is shallowly embedded: methods become pure Lean functions,
object state (`self._conversations`, the usage counters) is passed
explicitly, wall-clock readings and the current timestamp are parameters,
and the AI provider is an abstract function from the attempt index to the
signal (successful response or typed exception) it produces on that
attempt.  Floats are modelled by `ℚ`.  `time.sleep` calls are recorded as
a list of the requested durations, and each provider invocation is
counted, so retry/backoff behaviour is fully observable.
-/

/-- Mirror of `ErrorType` (ai_client.py lines 30-38). -/
inductive ErrorType
  | RATE_LIMIT
  | API_ERROR
  | INVALID_REQUEST
  | TIMEOUT
  | AUTHENTICATION
  | QUOTA_EXCEEDED
  | UNKNOWN
deriving Repr, DecidableEq

/-- Mirror of the `AIResponse` dataclass (ai_client.py lines 41-67),
with the same field defaults. -/
structure AIResponse where
  content : String
  success : Bool
  error_type : Option ErrorType := none
  error_message : Option String := none
  tokens_used : Nat := 0
  model_used : String := ""
  response_time : ℚ := 0
  attempt_count : Nat := 1
deriving Repr, DecidableEq

/-- The configuration fields of `AIConfig` (config/settings.py) that the
request/retry logic reads. -/
structure AIConfig where
  model : String := "gpt-3.5-turbo"
  max_retries : Nat := 3
deriving Repr, DecidableEq

/-- One attempt's interaction with the provider: either a successful
chat-completion response (its content text and `usage.total_tokens`), or
one of the typed exceptions caught in `_make_request_with_retry`
(ai_client.py lines 241-260). -/
inductive ProviderSignal
  | success (content : String) (total_tokens : Nat)
  | rateLimitError
  | apiError
  | invalidRequestError
  | authenticationError
  | permissionError
  | unexpectedError
deriving Repr, DecidableEq

/-- Result of one call to `_make_request_with_retry`: the returned
`AIResponse`, the sequence of `time.sleep` durations performed, and the
number of provider requests issued. -/
structure RetryTrace where
  response : AIResponse
  sleeps : List Nat
  calls : Nat
deriving Repr, DecidableEq

/-- Mirror of `AIClient._handle_rate_limit_error` (ai_client.py lines
271-287): below the retry limit it sleeps `min(2^attempt, 60)` and
returns the `success=True` continue-sentinel; at the limit it returns the
`RATE_LIMIT` failure.  The second component records the sleep. -/
def handle_rate_limit_error (cfg : AIConfig) (attempt : Nat) :
    AIResponse × List Nat :=
  if attempt < cfg.max_retries then
    ({ content := "", success := true }, [min (2 ^ attempt) 60])
  else
    ({ content := "", success := false,
       error_type := some ErrorType.RATE_LIMIT,
       error_message := some "Rate limit exceeded. Please try again in a few minutes.",
       attempt_count := attempt + 1 }, [])

/-- Mirror of `AIClient._handle_api_error` (ai_client.py lines 289-307):
below the retry limit it sleeps `2^attempt` (uncapped) and returns the
`success=True` continue-sentinel; at the limit it returns the `API_ERROR`
failure. -/
def handle_api_error (cfg : AIConfig) (attempt : Nat) :
    AIResponse × List Nat :=
  if attempt < cfg.max_retries then
    ({ content := "", success := true }, [2 ^ attempt])
  else
    ({ content := "", success := false,
       error_type := some ErrorType.API_ERROR,
       error_message := some "AI service is temporarily unavailable. Please try again later.",
       attempt_count := attempt + 1 }, [])

/-- Mirror of `AIClient._handle_invalid_request_error` (ai_client.py
lines 309-317). -/
def handle_invalid_request_error : AIResponse :=
  { content := "", success := false,
    error_type := some ErrorType.INVALID_REQUEST,
    error_message := some "Invalid request. Please check your input and try again." }

/-- Mirror of `AIClient._handle_authentication_error` (ai_client.py lines
319-327); note it leaves `attempt_count` at its default of 1. -/
def handle_authentication_error : AIResponse :=
  { content := "", success := false,
    error_type := some ErrorType.AUTHENTICATION,
    error_message := some "Authentication failed. Please check your API key." }

/-- Mirror of `AIClient._handle_permission_error` (ai_client.py lines
329-337). -/
def handle_permission_error : AIResponse :=
  { content := "", success := false,
    error_type := some ErrorType.QUOTA_EXCEEDED,
    error_message := some "API quota exceeded. Please check your billing and usage limits." }

/-- Mirror of `AIClient._handle_unexpected_error` (ai_client.py lines
339-349). -/
def handle_unexpected_error (attempt : Nat) : AIResponse :=
  { content := "", success := false,
    error_type := some ErrorType.UNKNOWN,
    error_message := some "An unexpected error occurred. Please try again.",
    attempt_count := attempt + 1 }

/-- The `for attempt in range(max_retries + 1)` loop body of
`AIClient._make_request_with_retry` (ai_client.py lines 210-269),
recursing on the number of remaining loop iterations.  Faithful to the
source: only the rate-limit branch inspects the handler's sentinel and
continues the loop (lines 241-245); the `APIError` branch returns the
handler's result unconditionally (line 248), and the remaining branches
return immediately.  Exhausting the iterations yields the post-loop
`Maximum retry attempts exceeded` response (lines 262-269). -/
def make_request_with_retry_aux (cfg : AIConfig) (provider : Nat → ProviderSignal) :
    Nat → Nat → RetryTrace
  | 0, _ =>
    ⟨{ content := "", success := false,
       error_type := some ErrorType.UNKNOWN,
       error_message := some "Maximum retry attempts exceeded",
       attempt_count := cfg.max_retries + 1 }, [], 0⟩
  | remaining + 1, attempt =>
    match provider attempt with
    | ProviderSignal.success c t =>
        ⟨{ content := c, success := true, tokens_used := t,
           model_used := cfg.model, attempt_count := attempt + 1 }, [], 1⟩
    | ProviderSignal.rateLimitError =>
        let er := handle_rate_limit_error cfg attempt
        if er.1.success then
          let rest := make_request_with_retry_aux cfg provider remaining (attempt + 1)
          ⟨rest.response, er.2 ++ rest.sleeps, rest.calls + 1⟩
        else
          ⟨er.1, er.2, 1⟩
    | ProviderSignal.apiError =>
        let er := handle_api_error cfg attempt
        ⟨er.1, er.2, 1⟩
    | ProviderSignal.invalidRequestError => ⟨handle_invalid_request_error, [], 1⟩
    | ProviderSignal.authenticationError => ⟨handle_authentication_error, [], 1⟩
    | ProviderSignal.permissionError => ⟨handle_permission_error, [], 1⟩
    | ProviderSignal.unexpectedError => ⟨handle_unexpected_error attempt, [], 1⟩

/-- Mirror of `AIClient._make_request_with_retry` (ai_client.py lines
210-269): run the attempt loop from attempt 0 with
`max_retries + 1` iterations available. -/
def make_request_with_retry (cfg : AIConfig) (provider : Nat → ProviderSignal) :
    RetryTrace :=
  make_request_with_retry_aux cfg provider (cfg.max_retries + 1) 0

/-- Mirror of the usage counters set up by `AIClient._reset_statistics`
(ai_client.py lines 141-147). -/
structure UsageStatistics where
  total_requests : Nat := 0
  successful_requests : Nat := 0
  failed_requests : Nat := 0
  total_tokens_used : Nat := 0
  total_response_time : ℚ := 0
deriving Repr, DecidableEq

/-- Mirror of `AIClient.generate_response` (ai_client.py lines 149-208)
on its non-raising path: increment `total_requests`, run the retry loop,
update the success/failure counters, then stamp the elapsed wall-clock
time on the response and accumulate it into `total_response_time` (lines
192-193, executed on success and on failure alike).  `elapsed` stands for
`time.time() - start_time`; message building does not influence any
modelled observable and is absorbed into the abstract provider. -/
def generate_response (cfg : AIConfig) (provider : Nat → ProviderSignal)
    (elapsed : ℚ) (stats : UsageStatistics) : AIResponse × UsageStatistics :=
  let stats1 : UsageStatistics :=
    { stats with total_requests := stats.total_requests + 1 }
  let trace := make_request_with_retry cfg provider
  let response := trace.response
  let stats2 : UsageStatistics :=
    if response.success then
      { stats1 with
          successful_requests := stats1.successful_requests + 1,
          total_tokens_used := stats1.total_tokens_used + response.tokens_used }
    else
      { stats1 with failed_requests := stats1.failed_requests + 1 }
  let response2 : AIResponse := { response with response_time := elapsed }
  let stats3 : UsageStatistics :=
    { stats2 with total_response_time := stats2.total_response_time + elapsed }
  (response2, stats3)

/-- Python's `round(x, 2)` on the exact rational values arising here. -/
def round2 (q : ℚ) : ℚ := (round (q * 100) : ℚ) / 100

/-- The snapshot returned by `AIClient.get_statistics` (ai_client.py
lines 398-424). -/
structure StatisticsSnapshot where
  total_requests : Nat
  successful_requests : Nat
  failed_requests : Nat
  success_rate_percent : ℚ
  total_tokens_used : Nat
  average_response_time_seconds : ℚ
  model_used : String
  max_retries_configured : Nat
deriving Repr, DecidableEq

/-- Mirror of `AIClient.get_statistics` (ai_client.py lines 398-424),
including the division-by-zero guards. -/
def get_statistics (cfg : AIConfig) (stats : UsageStatistics) :
    StatisticsSnapshot :=
  let avg : ℚ :=
    if stats.total_requests > 0 then
      stats.total_response_time / (stats.total_requests : ℚ)
    else 0
  let rate : ℚ :=
    if stats.total_requests > 0 then
      (stats.successful_requests : ℚ) / (stats.total_requests : ℚ) * 100
    else 0
  { total_requests := stats.total_requests,
    successful_requests := stats.successful_requests,
    failed_requests := stats.failed_requests,
    success_rate_percent := round2 rate,
    total_tokens_used := stats.total_tokens_used,
    average_response_time_seconds := round2 avg,
    model_used := cfg.model,
    max_retries_configured := cfg.max_retries }

/-- Mirror of the `ConversationExchange` dataclass (manager.py lines
41-61), with the same field defaults.  `metadata` is the optional open
key/value map, modelled as an association list. -/
structure ConversationExchange where
  timestamp : String
  user : String
  assistant : String
  tokens_used : Nat := 0
  model_used : String := ""
  response_time : ℚ := 0
  metadata : Option (List (String × String)) := none
deriving Repr, DecidableEq

/-- One JSON object of the backing file: the dictionary consumed by
`ConversationExchange.from_dict` (manager.py lines 63-74), each key
possibly absent. -/
structure ExchangeRecord where
  timestamp : Option String := none
  user : Option String := none
  assistant : Option String := none
  tokens_used : Option Nat := none
  model_used : Option String := none
  response_time : Option ℚ := none
  metadata : Option (List (String × String)) := none
deriving Repr, DecidableEq

/-- Mirror of `ConversationExchange.from_dict` (manager.py lines 63-74):
each missing key falls back to its default; the missing-timestamp default
`datetime.now().isoformat()` is the `now` parameter. -/
def ConversationExchange.from_dict (now : String) (d : ExchangeRecord) :
    ConversationExchange :=
  { timestamp := d.timestamp.getD now,
    user := d.user.getD "",
    assistant := d.assistant.getD "",
    tokens_used := d.tokens_used.getD 0,
    model_used := d.model_used.getD "",
    response_time := d.response_time.getD 0,
    metadata := d.metadata }

/-- Mirror of `ConversationExchange.to_dict` (manager.py lines 76-78):
`asdict` emits every field. -/
def ConversationExchange.to_dict (e : ConversationExchange) : ExchangeRecord :=
  { timestamp := some e.timestamp,
    user := some e.user,
    assistant := some e.assistant,
    tokens_used := some e.tokens_used,
    model_used := some e.model_used,
    response_time := some e.response_time,
    metadata := e.metadata }

/-- The configuration fields of `AppConfig` (config/settings.py) read by
the conversation store. -/
structure AppConfig where
  max_history_context : Nat := 10
  auto_save : Bool := true
  backup_on_corruption : Bool := true
deriving Repr, DecidableEq

/-- The states of the backing file that `_load_conversations`
distinguishes: absent; present but not parseable as JSON
(`json.JSONDecodeError`); present, parseable, but with a non-list top
level; or a parsed JSON array of record objects. -/
inductive StoredFile
  | absent
  | unparsable
  | parsedOther
  | parsedList (items : List ExchangeRecord)
deriving Repr, DecidableEq

/-- Result of loading: the in-memory sequence together with the number of
new backup files created during the load. -/
structure LoadResult where
  conversations : List ConversationExchange
  backups_created : Nat
deriving Repr, DecidableEq

/-- Mirror of `ConversationManager._handle_corrupted_file` (manager.py
lines 153-167): back the file up only when `backup_on_corruption` is set,
then start with an empty sequence. -/
def handle_corrupted_file (cfg : AppConfig) : LoadResult :=
  if cfg.backup_on_corruption then ⟨[], 1⟩ else ⟨[], 0⟩

/-- Mirror of `ConversationManager._load_conversations` (manager.py lines
121-151).  Note the source calls `_create_backup("invalid_format")`
unconditionally in the non-list branch (line 142), without consulting
`backup_on_corruption`; only the parse-failure path goes through
`_handle_corrupted_file`. -/
def load_conversations (cfg : AppConfig) (now : String) (file : StoredFile) :
    LoadResult :=
  match file with
  | StoredFile.absent => ⟨[], 0⟩
  | StoredFile.parsedList items =>
      ⟨items.map (ConversationExchange.from_dict now), 0⟩
  | StoredFile.parsedOther => ⟨[], 1⟩
  | StoredFile.unparsable => handle_corrupted_file cfg

/-- Python's `str.strip()`: drop leading and trailing whitespace.
Defined structurally over the character list so that it evaluates by
kernel reduction. -/
def pyStrip (s : String) : String :=
  String.mk
    (((s.data.dropWhile Char.isWhitespace).reverse.dropWhile
        Char.isWhitespace).reverse)

/-- Mirror of `ConversationManager.add_exchange` (manager.py lines
189-228) acting on the in-memory sequence: a no-op when either text is
empty after stripping, otherwise append one exchange built from the
stripped texts and the current time `now`.  Python's `str.strip()` is
modelled by `pyStrip`. -/
def add_exchange (now : String) (convs : List ConversationExchange)
    (user_message ai_response : String) (tokens_used : Nat)
    (model_used : String) (response_time : ℚ)
    (metadata : Option (List (String × String))) :
    List ConversationExchange :=
  if pyStrip user_message = "" ∨ pyStrip ai_response = "" then convs
  else
    convs ++ [{ timestamp := now,
                user := pyStrip user_message,
                assistant := pyStrip ai_response,
                tokens_used := tokens_used,
                model_used := model_used,
                response_time := response_time,
                metadata := metadata }]

/-- The last `n` elements of a list in order: Python's `l[-n:]` for
`n > 0`. -/
def lastN {α : Type} (n : Nat) (l : List α) : List α :=
  l.drop (l.length - n)

/-- The record shape returned by `get_recent_context` without metadata
(manager.py lines 251-258). -/
structure ContextRecord where
  user : String
  assistant : String
  timestamp : String
deriving Repr, DecidableEq

/-- Mirror of `ConversationManager.get_recent_context` (manager.py lines
230-258) with `include_metadata=False`.  The source computes
`limit = max_exchanges or self.config.max_history_context`, so an
explicit argument of `0` (falsy) falls back to the configured default;
the slice `self._conversations[-limit:]` is taken only when
`limit > 0`, otherwise the result is empty.  The method only reads the
sequence, so the store state is not part of the result. -/
def get_recent_context (cfg : AppConfig) (convs : List ConversationExchange)
    (max_exchanges : Option Int) : List ContextRecord :=
  let limit : Int :=
    match max_exchanges with
    | none => (cfg.max_history_context : Int)
    | some k => if k = 0 then (cfg.max_history_context : Int) else k
  let recent := if 0 < limit then lastN limit.toNat convs else []
  recent.map fun e => ⟨e.user, e.assistant, e.timestamp⟩

/-- Result of `optimize_storage`: the surviving sequence and the returned
removal count. -/
structure OptimizeResult where
  conversations : List ConversationExchange
  removed : Nat
deriving Repr, DecidableEq

/-- Mirror of `ConversationManager.optimize_storage` (manager.py lines
590-618) for non-negative arguments: `if not max_exchanges` treats both
`None` and `0` as absent and substitutes `max_history_context * 10`;
below-or-at the threshold nothing changes and 0 is returned, otherwise
the sequence is truncated to its last `max_exchanges` entries and the
number removed is returned. -/
def optimize_storage (cfg : AppConfig) (convs : List ConversationExchange)
    (max_exchanges : Option Nat) : OptimizeResult :=
  let maxEx : Nat :=
    match max_exchanges with
    | none => cfg.max_history_context * 10
    | some k => if k = 0 then cfg.max_history_context * 10 else k
  if convs.length ≤ maxEx then ⟨convs, 0⟩
  else ⟨lastN maxEx convs, convs.length - maxEx⟩

/-- Mirror of `ConversationManager._save_conversations` /
`ConversationManager._export_json` payload (manager.py lines 441-444 and
522-536): the JSON array written to disk is the full record list. -/
def save_conversations (convs : List ConversationExchange) :
    List ExchangeRecord :=
  convs.map ConversationExchange.to_dict

/-- Mirror of `ConversationManager.export_conversations` (manager.py
lines 389-439) with `format_type=JSON` and no date range: when the
sequence is empty the method returns `False` and writes nothing
(lines 415-417), modelled as `none`; otherwise the written JSON array is
returned. -/
def export_conversations_json (convs : List ConversationExchange) :
    Option (List ExchangeRecord) :=
  if convs.isEmpty then none else some (save_conversations convs)

/-- A provider that raises a rate-limit signal on every attempt. -/
def rateLimitProvider : Nat → ProviderSignal :=
  fun _ => ProviderSignal.rateLimitError

/-- The rate-limit failure response produced when attempts run out with
`max_retries = mr`. -/
def rateLimitFailure (mr : Nat) : AIResponse :=
  { content := "", success := false,
    error_type := some ErrorType.RATE_LIMIT,
    error_message := some "Rate limit exceeded. Please try again in a few minutes.",
    attempt_count := mr + 1 }

lemma make_request_with_retry_aux_rate_limit (cfg : AIConfig) :
    ∀ rem attempt, rem + attempt = cfg.max_retries + 1 → 0 < rem →
    make_request_with_retry_aux cfg rateLimitProvider rem attempt =
      ⟨rateLimitFailure cfg.max_retries,
       (List.range' attempt (rem - 1)).map (fun a => min (2 ^ a) 60),
       rem⟩ := by
  intro rem
  induction rem with
  | zero => intro attempt h h0; exact absurd h0 (lt_irrefl 0)
  | succ r ih =>
    intro attempt h h0
    rw [make_request_with_retry_aux]
    show (match rateLimitProvider attempt with
      | ProviderSignal.success c t =>
          ⟨{ content := c, success := true, tokens_used := t,
             model_used := cfg.model, attempt_count := attempt + 1 }, [], 1⟩
      | ProviderSignal.rateLimitError =>
          let er := handle_rate_limit_error cfg attempt
          if er.1.success then
            let rest := make_request_with_retry_aux cfg rateLimitProvider r (attempt + 1)
            ⟨rest.response, er.2 ++ rest.sleeps, rest.calls + 1⟩
          else
            ⟨er.1, er.2, 1⟩
      | ProviderSignal.apiError =>
          let er := handle_api_error cfg attempt
          ⟨er.1, er.2, 1⟩
      | ProviderSignal.invalidRequestError => ⟨handle_invalid_request_error, [], 1⟩
      | ProviderSignal.authenticationError => ⟨handle_authentication_error, [], 1⟩
      | ProviderSignal.permissionError => ⟨handle_permission_error, [], 1⟩
      | ProviderSignal.unexpectedError => ⟨handle_unexpected_error attempt, [], 1⟩
      : RetryTrace) = _
    simp only [rateLimitProvider]
    rcases Nat.eq_zero_or_pos r with hr | hr
    · subst hr
      have hattempt : attempt = cfg.max_retries := by omega
      subst hattempt
      simp only [handle_rate_limit_error, lt_irrefl, if_false]
      simp [rateLimitFailure]
    · have hlt : attempt < cfg.max_retries := by omega
      simp only [handle_rate_limit_error, hlt, if_true]
      rw [ih (attempt + 1) (by omega) hr]
      have hrange : List.range' attempt r = attempt :: List.range' (attempt + 1) (r - 1) := by
        conv_lhs => rw [show r = (r - 1) + 1 by omega]
        rw [List.range'_succ]
      simp [hrange]

/-- C3: for every configured max_retries, a generate call against a
provider that raises a rate-limit signal on every attempt makes exactly
max_retries+1 provider requests, sleeps min(2^attempt, 60) seconds
between consecutive attempts, and returns a failure outcome with
error_kind RATE_LIMIT and attempt_count equal to max_retries+1. -/
theorem c3_rate_limit_exhausts_all_attempts (cfg : AIConfig) :
    make_request_with_retry cfg rateLimitProvider =
      ⟨rateLimitFailure cfg.max_retries,
       (List.range cfg.max_retries).map (fun a => min (2 ^ a) 60),
       cfg.max_retries + 1⟩ := by
  have h := make_request_with_retry_aux_rate_limit cfg (cfg.max_retries + 1) 0
    (by omega) (by omega)
  rw [make_request_with_retry, h, List.range_eq_range']
  simp

/-- C8: a generate call whose first attempt raises an authentication
failure returns immediately, regardless of max_retries: a failure
outcome with error_kind AUTHENTICATION, attempt_count 1, a single
provider request, and zero backoff sleeps. -/
theorem c8_authentication_immediate_failure (cfg : AIConfig)
    (provider : Nat → ProviderSignal)
    (h : provider 0 = ProviderSignal.authenticationError) :
    make_request_with_retry cfg provider =
      ⟨handle_authentication_error, [], 1⟩ := by
  rw [make_request_with_retry, make_request_with_retry_aux, h]

/-- Witness for c8_authentication_immediate_failure at a concrete
configuration and provider, also recording the concrete failure fields. -/
theorem c8_authentication_immediate_failure_witness :
    make_request_with_retry { model := "gpt-3.5-turbo", max_retries := 7 }
        (fun _ => ProviderSignal.authenticationError) =
      ⟨{ content := "", success := false,
         error_type := some ErrorType.AUTHENTICATION,
         error_message := some "Authentication failed. Please check your API key.",
         attempt_count := 1 }, [], 1⟩ :=
  c8_authentication_immediate_failure
    { model := "gpt-3.5-turbo", max_retries := 7 }
    (fun _ => ProviderSignal.authenticationError) rfl

/-- Configuration for the service-error scenarios: three retries remain
after the first attempt. -/
def cfgServiceError : AIConfig := { model := "gpt-3.5-turbo", max_retries := 3 }

/-- A provider that raises a generic APIError on the first attempt and
would answer successfully on any later attempt. -/
def apiErrorThenSuccess : Nat → ProviderSignal
  | 0 => ProviderSignal.apiError
  | _ + 1 => ProviderSignal.success "The real answer" 42

/-- C1: against a provider that fails once with a generic service error
and then succeeds, and with retries remaining (max_retries = 3), the
retry loop does NOT continue: it performs the backoff sleep of
2^0 = 1 second and then returns the handler's continue-sentinel
(success = true, empty content) after a single provider request, so the
caller never sees the real response content.  The attempt loop of
_make_request_with_retry returns the _handle_api_error result
unconditionally instead of re-entering the loop. -/
theorem c1_api_error_returns_success_sentinel :
    (make_request_with_retry cfgServiceError apiErrorThenSuccess).calls = 1 ∧
    (make_request_with_retry cfgServiceError apiErrorThenSuccess).sleeps = [1] ∧
    (make_request_with_retry cfgServiceError apiErrorThenSuccess).response.success = true ∧
    (make_request_with_retry cfgServiceError apiErrorThenSuccess).response.content = "" ∧
    (make_request_with_retry cfgServiceError apiErrorThenSuccess).response.content ≠
      "The real answer" ∧
    (generate_response cfgServiceError apiErrorThenSuccess 1 {}).1.content = "" := by
  refine ⟨rfl, rfl, rfl, rfl, ?_, rfl⟩
  decide

/-- Configuration for the empty-content success scenario. -/
def cfgApiOnce : AIConfig := { model := "gpt-3.5-turbo", max_retries := 2 }

/-- A provider that raises a generic APIError on the first attempt only. -/
def apiErrorOnceProvider : Nat → ProviderSignal
  | 0 => ProviderSignal.apiError
  | _ + 1 => ProviderSignal.success "Hi there" 3

/-- C2: generate_response can return an outcome with success = true and
empty content: with retries remaining, an APIError attempt makes
_make_request_with_retry return the handler's success-flagged sentinel,
whose content is the empty string. -/
theorem c2_success_outcome_with_empty_content :
    (generate_response cfgApiOnce apiErrorOnceProvider 1 {}).1.success = true ∧
    (generate_response cfgApiOnce apiErrorOnceProvider 1 {}).1.content = "" := by
  exact ⟨rfl, rfl⟩

/-- A provider that raises an authentication failure on every attempt,
so every call through it fails after one request. -/
def authFailProvider : Nat → ProviderSignal :=
  fun _ => ProviderSignal.authenticationError

/-- A provider that answers successfully on every attempt with the given
content and token count. -/
def okProvider (content : String) (tokens : Nat) : Nat → ProviderSignal :=
  fun _ => ProviderSignal.success content tokens

/-- Configuration for the statistics scenario. -/
def cfgStats : AIConfig := { model := "gpt-3.5-turbo", max_retries := 3 }

/-- The counters after 3 successful calls consuming 10, 20 and 30 tokens
and 1 failed call, each call taking 1 second of wall-clock time. -/
def scenarioStats : UsageStatistics :=
  (generate_response cfgStats authFailProvider 1
    (generate_response cfgStats (okProvider "c" 30) 1
      (generate_response cfgStats (okProvider "b" 20) 1
        (generate_response cfgStats (okProvider "a" 10) 1 {}).2).2).2).2

/-- C7 counterexample: a failed generate_response call does not leave
total_response_time untouched — the failure branch increments
failed_requests AND accumulates the elapsed time, because line 193 of
ai_client.py runs on success and failure alike.  The claim's failure
side-effect list (only failed_requests) is therefore false. -/
theorem c7_failed_call_accumulates_response_time :
    (generate_response cfgStats authFailProvider 1 {}).1.success = false ∧
    (generate_response cfgStats authFailProvider 1 {}).2.failed_requests = 1 ∧
    (generate_response cfgStats authFailProvider 1 {}).2.total_response_time ≠
      ({} : UsageStatistics).total_response_time := by
  refine ⟨rfl, rfl, ?_⟩
  have h1 : (generate_response cfgStats authFailProvider 1 {}).2.total_response_time
      = 0 + 1 := rfl
  have h2 : ({} : UsageStatistics).total_response_time = 0 := rfl
  rw [h1, h2]
  norm_num

/-- C7 (amended): every generate_response call increments total_requests
and accumulates the elapsed time into total_response_time (on success
and on failure alike); a successful outcome additionally increments
successful_requests and adds its tokens_used to total_tokens_used, and a
failed outcome additionally increments failed_requests.  In particular,
after 3 successful calls consuming 10, 20 and 30 tokens and 1 failed
call, the statistics snapshot shows total_requests=4,
successful_requests=3, failed_requests=1, total_tokens_used=60 and
success_rate_percent=75.0; with zero requests made, both
success_rate_percent and average_response_time_seconds are 0. -/
theorem c7_statistics_accounting (cfg : AIConfig)
    (provider : Nat → ProviderSignal) (elapsed : ℚ) (s : UsageStatistics) :
    ((generate_response cfg provider elapsed s).2.total_requests =
        s.total_requests + 1 ∧
      (generate_response cfg provider elapsed s).2.successful_requests =
        s.successful_requests +
          (if (generate_response cfg provider elapsed s).1.success then 1 else 0) ∧
      (generate_response cfg provider elapsed s).2.failed_requests =
        s.failed_requests +
          (if (generate_response cfg provider elapsed s).1.success then 0 else 1) ∧
      (generate_response cfg provider elapsed s).2.total_tokens_used =
        s.total_tokens_used +
          (if (generate_response cfg provider elapsed s).1.success then
            (generate_response cfg provider elapsed s).1.tokens_used else 0) ∧
      (generate_response cfg provider elapsed s).2.total_response_time =
        s.total_response_time + elapsed) ∧
    (get_statistics cfgStats scenarioStats).total_requests = 4 ∧
    (get_statistics cfgStats scenarioStats).successful_requests = 3 ∧
    (get_statistics cfgStats scenarioStats).failed_requests = 1 ∧
    (get_statistics cfgStats scenarioStats).total_tokens_used = 60 ∧
    (get_statistics cfgStats scenarioStats).success_rate_percent = 75 ∧
    (get_statistics cfgStats ({} : UsageStatistics)).success_rate_percent = 0 ∧
    (get_statistics cfgStats ({} : UsageStatistics)).average_response_time_seconds = 0 := by
  constructor
  · by_cases h : (make_request_with_retry cfg provider).response.success = true
    · simp [generate_response, h]
    · simp [generate_response, h]
  · refine ⟨rfl, rfl, rfl, rfl, ?_, ?_, ?_⟩
    · have h3 : scenarioStats.successful_requests = 3 := rfl
      have h4 : scenarioStats.total_requests = 4 := rfl
      simp only [get_statistics, h3, h4, round2, round_eq]
      norm_num
    · simp only [get_statistics, round2, round_eq]
      norm_num
    · simp only [get_statistics, round2, round_eq]
      norm_num

/-- A store configuration with corruption backups disabled. -/
def cfgNoBackup : AppConfig :=
  { max_history_context := 10, auto_save := true, backup_on_corruption := false }

/-- C4 counterexample: with backup_on_corruption disabled, loading a
file whose top-level value is not a list still creates one backup,
because _load_conversations calls _create_backup("invalid_format")
without consulting the flag (manager.py line 142).  The claim's
"none when disabled" direction is therefore false. -/
theorem c4_backup_created_despite_disabled_flag :
    cfgNoBackup.backup_on_corruption = false ∧
    (load_conversations cfgNoBackup "2024-01-01T00:00:00"
        StoredFile.parsedOther).backups_created = 1 := by
  exact ⟨rfl, rfl⟩

/-- C4 (amended): for every backing file whose content fails to parse or
whose top-level value is not a list, load leaves the in-memory sequence
empty (and, being total, never raises past the store boundary).  When
the content fails to parse, a timestamped backup is created iff the
backup-on-corruption flag is set; when the file parses but its top-level
value is not a list, exactly one backup is created unconditionally,
regardless of the flag. -/
theorem c4_corruption_recovery (cfg : AppConfig) (now : String) :
    load_conversations cfg now StoredFile.unparsable =
      ⟨[], if cfg.backup_on_corruption then 1 else 0⟩ ∧
    load_conversations cfg now StoredFile.parsedOther = ⟨[], 1⟩ := by
  refine ⟨?_, rfl⟩
  show handle_corrupted_file cfg = _
  unfold handle_corrupted_file
  by_cases h : cfg.backup_on_corruption <;> simp [h]

/-- C5: optimize with an explicit 0 < k < N truncates an N-exchange
store to exactly its last k exchanges in original order and returns
N - k; with no explicit argument the threshold defaults to 10 times the
configured context window, and any store at or below that threshold is
returned unchanged with 0 removed. -/
theorem c5_optimize_storage_truncates_to_last_k
    (cfg cfg2 : AppConfig) (convs convs2 : List ConversationExchange) (k : Nat)
    (hk : 0 < k) (hkN : k < convs.length)
    (h2 : convs2.length ≤ cfg2.max_history_context * 10) :
    (optimize_storage cfg convs (some k)).removed = convs.length - k ∧
    (optimize_storage cfg convs (some k)).conversations =
      convs.drop (convs.length - k) ∧
    (optimize_storage cfg convs (some k)).conversations.length = k ∧
    optimize_storage cfg2 convs2 none = ⟨convs2, 0⟩ := by
  have hk0 : ¬ k = 0 := by omega
  have hlen : ¬ convs.length ≤ k := by omega
  have hopt : optimize_storage cfg convs (some k) =
      ⟨lastN k convs, convs.length - k⟩ := by
    unfold optimize_storage
    simp only [hk0, if_false, hlen]
  refine ⟨?_, ?_, ?_, ?_⟩
  · rw [hopt]
  · rw [hopt]; rfl
  · rw [hopt]
    show (convs.drop (convs.length - k)).length = k
    rw [List.length_drop]
    omega
  · unfold optimize_storage
    simp only [h2, if_true]

/-- A concrete exchange used by the closed witnesses below. -/
def exW (i : Nat) : ConversationExchange :=
  { timestamp := toString i, user := "question", assistant := "answer" }

/-- A concrete three-exchange store. -/
def convsW : List ConversationExchange := [exW 0, exW 1, exW 2]

/-- Witness for c5_optimize_storage_truncates_to_last_k on a
three-exchange store with k = 2 and the default configuration. -/
theorem c5_optimize_storage_truncates_to_last_k_witness :
    (optimize_storage {} convsW (some 2)).removed = convsW.length - 2 ∧
    (optimize_storage {} convsW (some 2)).conversations =
      convsW.drop (convsW.length - 2) ∧
    (optimize_storage {} convsW (some 2)).conversations.length = 2 ∧
    optimize_storage {} convsW none = ⟨convsW, 0⟩ :=
  c5_optimize_storage_truncates_to_last_k {} {} convsW convsW 2
    (by decide) (by decide) (by decide)

/-- Loading a record written by the store's own serializer restores the
exchange unchanged: every field is present, so no default fires. -/
lemma from_dict_to_dict (now : String) (e : ConversationExchange) :
    ConversationExchange.from_dict now (ConversationExchange.to_dict e) = e :=
  rfl

/-- C6 counterexample: the empty JSON array is a well-formed saved file
(it is exactly what save writes for an empty store), load maps it to the
empty sequence, but export then refuses (returns failure and writes
nothing), so the round trip does not reproduce the on-disk
representation. -/
theorem c6_empty_file_export_refused :
    (load_conversations {} "t0" (StoredFile.parsedList [])).conversations = [] ∧
    export_conversations_json
      (load_conversations {} "t0" (StoredFile.parsedList [])).conversations = none := by
  exact ⟨rfl, rfl⟩

/-- C6 (amended): for every NON-EMPTY well-formed saved file (a JSON
array of complete exchange records as produced by the store's own
save/export), load followed immediately by export in the structured-data
format reproduces the same ordered sequence of exchanges, and the
exported representation equals the on-disk representation. -/
theorem c6_load_export_roundtrip_nonempty (cfg : AppConfig) (now : String)
    (convs : List ConversationExchange) (h : convs ≠ []) :
    (load_conversations cfg now
        (StoredFile.parsedList (save_conversations convs))).conversations = convs ∧
    export_conversations_json
        (load_conversations cfg now
          (StoredFile.parsedList (save_conversations convs))).conversations =
      some (save_conversations convs) := by
  have hl : (load_conversations cfg now
      (StoredFile.parsedList (save_conversations convs))).conversations = convs := by
    show (save_conversations convs).map (ConversationExchange.from_dict now) = convs
    unfold save_conversations
    rw [List.map_map]
    have : (ConversationExchange.from_dict now ∘ ConversationExchange.to_dict) = id := by
      funext e
      exact from_dict_to_dict now e
    rw [this, List.map_id]
  refine ⟨hl, ?_⟩
  rw [hl]
  unfold export_conversations_json
  cases convs with
  | nil => exact absurd rfl h
  | cons a t => rfl

/-- Witness for c6_load_export_roundtrip_nonempty on a one-exchange
store. -/
theorem c6_load_export_roundtrip_nonempty_witness :
    (load_conversations {} "t0"
        (StoredFile.parsedList (save_conversations [exW 0]))).conversations = [exW 0] ∧
    export_conversations_json
        (load_conversations {} "t0"
          (StoredFile.parsedList (save_conversations [exW 0]))).conversations =
      some (save_conversations [exW 0]) :=
  c6_load_export_roundtrip_nonempty {} "t0" [exW 0] (by simp)

/-- C9: add_exchange is a no-op whenever either text is empty or
all-whitespace after trimming, and otherwise appends exactly one new
exchange holding the trimmed texts while leaving every previously stored
exchange unchanged. -/
theorem c9_add_exchange_validation (now : String)
    (convs : List ConversationExchange) (u a : String) (tk : Nat)
    (m : String) (rt : ℚ) (md : Option (List (String × String))) :
    ((pyStrip u = "" ∨ pyStrip a = "") →
      add_exchange now convs u a tk m rt md = convs) ∧
    (pyStrip u ≠ "" → pyStrip a ≠ "" →
      add_exchange now convs u a tk m rt md =
        convs ++ [{ timestamp := now, user := pyStrip u,
                    assistant := pyStrip a,
                    tokens_used := tk, model_used := m, response_time := rt,
                    metadata := md }]) := by
  constructor
  · intro h
    unfold add_exchange
    rw [if_pos h]
  · intro hu ha
    unfold add_exchange
    rw [if_neg]
    push_neg
    exact ⟨hu, ha⟩

/-- Witness for c9_add_exchange_validation: a whitespace-only user text
leaves the store unchanged, and two trimmable non-empty texts append one
trimmed exchange. -/
theorem c9_add_exchange_validation_witness :
    add_exchange "t1" convsW "   " "some reply" 0 "" 0 none = convsW ∧
    add_exchange "t1" convsW " hello " "  world  " 5 "gpt-3.5-turbo" 2 none =
      convsW ++ [{ timestamp := "t1", user := pyStrip " hello ",
                   assistant := pyStrip "  world  ", tokens_used := 5,
                   model_used := "gpt-3.5-turbo", response_time := 2,
                   metadata := none }] :=
  ⟨(c9_add_exchange_validation "t1" convsW "   " "some reply" 0 "" 0 none).1
      (Or.inl (by decide)),
   (c9_add_exchange_validation "t1" convsW " hello " "  world  " 5
      "gpt-3.5-turbo" 2 none).2 (by decide) (by decide)⟩

/-- A store configuration with a positive context window, used by the
context-retrieval scenarios. -/
def cfgContext : AppConfig :=
  { max_history_context := 5, auto_save := true, backup_on_corruption := true }

/-- C10 counterexample: on an empty store, get_recent_context with an
explicit max_exchanges of 0 does return the empty list even though the
configured default is positive, so the claim's unconditional
"does not return the empty list" fails. -/
theorem c10_explicit_zero_on_empty_store_returns_empty :
    0 < cfgContext.max_history_context ∧
    get_recent_context cfgContext [] (some 0) = [] := by
  exact ⟨by decide, rfl⟩

/-- C10 (amended): an explicit max_exchanges of 0 is treated as absent by
the parameter-default expression, so the call falls back to the
configured max_history_context and returns that slice of trailing
exchanges — on a non-empty store with a positive configured default the
result is never the empty list; a strictly negative max_exchanges yields
the empty list.  The function only reads the sequence (its result is a
fresh record list and the store is not part of its output). -/
theorem c10_recent_context_zero_treated_as_absent (cfg : AppConfig)
    (convs : List ConversationExchange) (k : Int)
    (hc : convs ≠ []) (hd : 0 < cfg.max_history_context) (hk : k < 0) :
    get_recent_context cfg convs (some 0) = get_recent_context cfg convs none ∧
    get_recent_context cfg convs (some 0) =
      (lastN cfg.max_history_context convs).map
        (fun e => ⟨e.user, e.assistant, e.timestamp⟩) ∧
    get_recent_context cfg convs (some 0) ≠ [] ∧
    get_recent_context cfg convs (some k) = [] := by
  have hd' : (0 : Int) < (cfg.max_history_context : Int) := by
    exact_mod_cast hd
  have hzero : get_recent_context cfg convs (some 0) =
      (lastN cfg.max_history_context convs).map
        (fun e => ⟨e.user, e.assistant, e.timestamp⟩) := by
    show (if (0 : Int) < (cfg.max_history_context : Int) then
        lastN ((cfg.max_history_context : Int)).toNat convs else []).map
        (fun e => ContextRecord.mk e.user e.assistant e.timestamp) = _
    rw [if_pos hd', Int.toNat_natCast]
  refine ⟨rfl, hzero, ?_, ?_⟩
  · rw [hzero]
    have hlen : 0 < convs.length := List.length_pos.mpr hc
    have hdrop : convs.drop (convs.length - cfg.max_history_context) ≠ [] := by
      intro hnil
      rw [List.drop_eq_nil_iff] at hnil
      omega
    unfold lastN
    simpa using hdrop
  · show (if (0 : Int) < (if k = 0 then (cfg.max_history_context : Int) else k) then
        lastN (if k = 0 then (cfg.max_history_context : Int) else k).toNat convs
      else []).map (fun e => ContextRecord.mk e.user e.assistant e.timestamp) = []
    rw [if_neg (show ¬ k = 0 by omega), if_neg (show ¬ (0 : Int) < k by omega)]
    rfl

/-- Witness for c10_recent_context_zero_treated_as_absent on a
three-exchange store with a configured default of 5 and the explicit
argument -1. -/
theorem c10_recent_context_zero_treated_as_absent_witness :
    get_recent_context cfgContext convsW (some 0) =
      get_recent_context cfgContext convsW none ∧
    get_recent_context cfgContext convsW (some 0) =
      (lastN cfgContext.max_history_context convsW).map
        (fun e => ⟨e.user, e.assistant, e.timestamp⟩) ∧
    get_recent_context cfgContext convsW (some 0) ≠ [] ∧
    get_recent_context cfgContext convsW (some (-1)) = [] :=
  c10_recent_context_zero_treated_as_absent cfgContext convsW (-1)
    (by decide) (by decide) (by decide)
